import Mathlib

/-!
# Precondition chain and root pre-run of the command-line client

Shallow embedding of `internal/cmdutil/chain.go` and of the root command's
`PersistentPreRunE` (`internal/cmd/root/root.go`).

Run functions are state transformers on the factory: a Go
`func(cmd, args) error` becomes `Command → List String → σ → σ × Option Error`,
where `none` is Go's `nil` error.  Everything the run functions call but which
lives outside the two files (configuration lookup, template engine, API client,
interactive prompt, configuration loader) is a field of `Env`, so every theorem
holds for all behaviours of those parts.
-/

namespace Cli

/-! ## Data model -/

/-- Modelled from the spec: the error values of `cmdutil` (declared outside the
files embedded here).  `ErrSilent` is the silent sentinel error, `FlagError` is
what `NewFlagErrorf` builds, and `other` stands for every error produced by a
collaborator (template engine, API client, prompt, configuration loader). -/
inductive Error where
  | ErrSilent : Error
  | FlagError (msg : String) : Error
  | other (code : Nat) : Error
deriving DecidableEq, Repr

/-- The constructor `NewFlagErrorf` applied to a format string without verbs. -/
def NewFlagErrorf (msg : String) : Error := Error.FlagError msg

/-- A deployment descriptor (URL, token, organization id). -/
structure Deployment where
  URL : String
  Token : String
  OrganizationID : String
deriving DecidableEq, Repr

/-- The configuration record, with the fields the embedded code reads or writes.
The Go map `Deployments` is an association list; the code only observes key
presence and emptiness. -/
structure Config where
  Deployments : List (String × Deployment)
  ActiveDeployment : String
  OrganizationIDOverride : String
  TokenOverride : String
  URLOverride : String
  Insecure : Bool
  ForceCloud : Bool
deriving DecidableEq, Repr

/-- The message templates declared at the top of `chain.go`, by variable name. -/
inductive Template where
  | noDeploymentsMsg : Template
  | badDeploymentMsg : Template
  | badActiveDeploymentMsg : Template
  | noDatasetsMsg : Template
  | restrictedByAPITokenMsg : Template
  | notCloudDeploymentMsg : Template
deriving DecidableEq, Repr

/-- Calls that leave the process: client construction, the dataset listing
request and the interactive prompt. -/
inductive Call where
  | Client : Call
  | DatasetsList : Call
  | AskOne (message : String) (options : List String) : Call
deriving DecidableEq, Repr

/-- The factory `f` as the run functions see it: `f.Config`, the terminal
(`IsStdinTTY`, the activity indicator, the text written to `ErrOut`), and two
ghost fields: the log of external calls and the string cells that `*string`
arguments point into. -/
structure Factory where
  Config : Config
  StdinTTY : Bool
  ActivityIndicator : Bool
  ErrOut : List String
  Calls : List Call
  Heap : List String
deriving DecidableEq, Repr

/-- A command-line flag as read by the code: `Changed` and `Value.String()`. -/
structure PFlag where
  Changed : Bool
  Value : String
deriving DecidableEq, Repr

/-- The part of a cobra command the run functions use.  `Flag` is total because
every name looked up is registered as a persistent flag by `NewRootCmd`. -/
structure Command where
  CommandPath : String
  Flag : String → PFlag

/-- Template data: the `map[string]string` literal passed to the template
(`nil` is the empty list). -/
abbrev Data := List (String × String)

/-- The collaborators of the embedded code.  Each is an arbitrary function of
what it can observe. -/
structure Env where
  /-- Go `Config.GetActiveDeployment`: the deployment and the `ok` flag. -/
  GetActiveDeployment : Config → Deployment × Bool
  /-- Go `Config.DeploymentAliases`. -/
  DeploymentAliases : Config → List String
  /-- Go `axiom.IsPersonalToken`. -/
  IsPersonalToken : String → Bool
  /-- Go `axiom.CloudURL`. -/
  CloudURL : String
  /-- Go `template.New("util").Funcs(...).Parse(tmplStr)`: the parse error, if any. -/
  Parse : Factory → Template → Option Error
  /-- Go `tmpl.Execute(io.ErrOut(), data)`: the text written and the error, if any. -/
  Execute : Factory → Template → Data → String × Option Error
  /-- Go `f.Client(ctx)`: the error, if any. -/
  Client : Factory → Option Error
  /-- Go `client.Datasets.List(ctx)`: the dataset names and the error, if any. -/
  DatasetsList : Factory → List String × Option Error
  /-- Go `survey.AskOne` on a select prompt: the value stored through the response
  pointer and the error, if any. -/
  AskOne : Factory → List String → String × Option Error
  /-- Go `config.Load(path)`: the configuration returned and the error, if any. -/
  Load : String → Config × Option Error

/-- First line of each template's text, as written in `chain.go`. -/
def Template.firstLine : Template → String
  | .noDeploymentsMsg => "\x7b\x7b errorIcon \x7d\x7d No deployments configured!"
  | .badDeploymentMsg =>
    "\x7b\x7b errorIcon \x7d\x7d Chosen deployment \x7b\x7b bold .Deployment \x7d\x7d is not configured!"
  | .badActiveDeploymentMsg =>
    "\x7b\x7b errorIcon \x7d\x7d Chosen deployment \x7b\x7b bold .Deployment \x7d\x7d is not configured!"
  | .noDatasetsMsg => "\x7b\x7b errorIcon \x7d\x7d No datasets present on configured deployment!"
  | .restrictedByAPITokenMsg =>
    "\x7b\x7b errorIcon \x7d\x7d Deployment is configured with an API token!"
  | .notCloudDeploymentMsg =>
    "\x7b\x7b errorIcon \x7d\x7d Chosen deployment \x7b\x7b bold .Deployment \x7d\x7d is not an Axiom Cloud deployment!"

/-- Go `RunFunc`: a cobra run function, as a transformer of the state `σ`. -/
abbrev RunFunc (σ : Type) := Command → List String → σ → σ × Option Error

/-! ## `chain.go` -/

/-- Go `ChainRunFuncs`: run the functions in order, return the first non-nil
error, or nil after the last one. -/
def ChainRunFuncs {σ : Type} : List (RunFunc σ) → RunFunc σ
  | [], _, _, s => (s, none)
  | fn :: rest, cmd, args, s =>
    match fn cmd args s with
    | (s', some err) => (s', some err)
    | (s', none) => ChainRunFuncs rest cmd args s'

/-- Go `execTemplateSilent`: parse and execute the template on `ErrOut`; a parse or
execution error is returned, success returns `ErrSilent`. -/
def execTemplateSilent (env : Env) (f : Factory) (tmplStr : Template) (data : Data) :
    Factory × Option Error :=
  match env.Parse f tmplStr with
  | some err => (f, some err)
  | none =>
    match env.Execute f tmplStr data with
    | (out, some err) => ({ f with ErrOut := f.ErrOut ++ [out] }, some err)
    | (out, none) => ({ f with ErrOut := f.ErrOut ++ [out] }, some Error.ErrSilent)

/-- Key presence in the deployment map: the `ok` of `Deployments[k]`. -/
def hasKey (m : List (String × Deployment)) (k : String) : Bool :=
  (m.lookup k).isSome

/-- Go `NeedsActiveDeployment`. -/
def NeedsActiveDeployment (env : Env) : RunFunc Factory := fun cmd _ f =>
  if (env.GetActiveDeployment f.Config).2 then
    (f, none)
  else if f.Config.ActiveDeployment ≠ "" then
    execTemplateSilent env f Template.badActiveDeploymentMsg
      [("Deployment", f.Config.ActiveDeployment), ("CommandPath", cmd.CommandPath)]
  else if f.Config.Deployments.length = 0 then
    execTemplateSilent env f Template.noDeploymentsMsg []
  else if (!f.StdinTTY) && (f.Config.ActiveDeployment == "") then
    (f, some (NewFlagErrorf "--deployment or -D required when not running interactively"))
  else
    let options := env.DeploymentAliases f.Config
    let r := env.AskOne f options
    ({ f with
        Config := { f.Config with ActiveDeployment := r.1 },
        Calls := f.Calls ++ [Call.AskOne "Which deployment to use?" options] },
     r.2)

/-- Go `NeedsDeployments`. -/
def NeedsDeployments (env : Env) : RunFunc Factory := fun _ _ f =>
  if f.Config.Deployments.length = 0 then
    execTemplateSilent env f Template.noDeploymentsMsg []
  else (f, none)

/-- Dereference of a `*string` argument: the cell of the heap it points to. -/
def deref (f : Factory) (p : Nat) : String := f.Heap.getD p ""

/-- Go `NeedsValidDeployment`: the alias argument is a pointer, read when the
function runs. -/
def NeedsValidDeployment (env : Env) (aliasPtr : Nat) : RunFunc Factory := fun _ _ f =>
  if (!hasKey f.Config.Deployments (deref f aliasPtr)) && (deref f aliasPtr != "") then
    execTemplateSilent env f Template.badDeploymentMsg [("Deployment", deref f aliasPtr)]
  else (f, none)

/-- Go `NeedsDatasets`. -/
def NeedsDatasets (env : Env) : RunFunc Factory := fun _ _ f =>
  if (env.GetActiveDeployment f.Config).2 &&
      !env.IsPersonalToken (env.GetActiveDeployment f.Config).1.Token then
    (f, none)
  else
    let f1 := { f with Calls := f.Calls ++ [Call.Client] }
    match env.Client f with
    | some err => (f1, some err)
    | none =>
      let f2 := { f1 with Calls := f1.Calls ++ [Call.DatasetsList] }
      match env.DatasetsList f1 with
      | (_, some err) => (f2, some err)
      | (datasets, none) =>
        if datasets.length = 0 then
          execTemplateSilent env f2 Template.noDatasetsMsg
            [("Deployment", f.Config.ActiveDeployment)]
        else (f2, none)

/-- Go `NeedsPersonalAccessToken`. -/
def NeedsPersonalAccessToken (env : Env) : RunFunc Factory := fun cmd _ f =>
  if !(env.GetActiveDeployment f.Config).2 then
    (f, none)
  else if env.IsPersonalToken (env.GetActiveDeployment f.Config).1.Token then
    (f, none)
  else
    execTemplateSilent env f Template.restrictedByAPITokenMsg
      [("Deployment", f.Config.ActiveDeployment), ("CommandPath", cmd.CommandPath)]

/-- Go `NeedsCloudDeployment`. -/
def NeedsCloudDeployment (env : Env) : RunFunc Factory := fun _ _ f =>
  if !(env.GetActiveDeployment f.Config).2 then
    (f, none)
  else if (env.GetActiveDeployment f.Config).1.URL == env.CloudURL || f.Config.ForceCloud then
    (f, none)
  else
    execTemplateSilent env f Template.notCloudDeploymentMsg
      [("Deployment", f.Config.ActiveDeployment)]

/-! ## `root.go` -/

/-- Go `PersistentPreRunE` of the root command built by `NewRootCmd`. -/
def PersistentPreRunE (env : Env) : RunFunc Factory := fun cmd _ f =>
  let r : Factory × Option Error :=
    if (cmd.Flag "config").Changed then
      ({ f with Config := (env.Load (cmd.Flag "config").Value).1 },
       (env.Load (cmd.Flag "config").Value).2)
    else (f, none)
  match r.2 with
  | some err => (r.1, some err)
  | none =>
    let c0 := r.1.Config
    let c1 := if (cmd.Flag "deployment").Changed then
      { c0 with ActiveDeployment := (cmd.Flag "deployment").Value } else c0
    let c2 := if (cmd.Flag "org-id").Changed then
      { c1 with OrganizationIDOverride := (cmd.Flag "org-id").Value } else c1
    let c3 := if (cmd.Flag "token").Changed then
      { c2 with TokenOverride := (cmd.Flag "token").Value } else c2
    let c4 := if (cmd.Flag "url").Changed then
      { c3 with URLOverride := (cmd.Flag "url").Value } else c3
    let c5 := { c4 with
      Insecure := (cmd.Flag "insecure").Changed,
      ForceCloud := (cmd.Flag "force-cloud").Changed }
    ({ r.1 with Config := c5, ActivityIndicator := !(cmd.Flag "no-spinner").Changed }, none)

/-! ## Specification vocabulary -/

/-- The configuration the overrides of `PersistentPreRunE` are applied to: the
one loaded from `--config` when that flag was given, the factory's otherwise. -/
def loadedConfig (env : Env) (cmd : Command) (f : Factory) : Config :=
  if (cmd.Flag "config").Changed then (env.Load (cmd.Flag "config").Value).1 else f.Config

/-- Rendering of a template succeeds: neither parsing nor execution fails. -/
def renders (env : Env) (f : Factory) (t : Template) (d : Data) : Prop :=
  env.Parse f t = none ∧ (env.Execute f t d).2 = none

/-- The text a template execution writes to the error output. -/
def rendered (env : Env) (f : Factory) (t : Template) (d : Data) : String :=
  (env.Execute f t d).1

/-- State reached once every function of the list has been invoked in order. -/
def stateAfter {σ : Type} (fns : List (RunFunc σ)) (cmd : Command) (args : List String)
    (s : σ) : σ :=
  fns.foldl (fun st fn => (fn cmd args st).1) s

/-- The error the function at position `j` returns when it is invoked after the
functions before it. -/
def resultAt {σ : Type} (fns : List (RunFunc σ)) (cmd : Command) (args : List String)
    (s : σ) (j : Nat) : Option Error :=
  match fns.get? j with
  | some fn => (fn cmd args (stateAfter (fns.take j) cmd args s)).2
  | none => none

/-- Ghost instrumentation: behaves as `fn` and appends `i` to an invocation log
carried next to the state. -/
def logged {σ : Type} (i : Nat) (fn : RunFunc σ) : RunFunc (σ × List Nat) :=
  fun cmd args s => (((fn cmd args s.1).1, s.2 ++ [i]), (fn cmd args s.1).2)

/-- Instrument a list of run functions with the positions `n, n+1, ...`. -/
def loggedFrom {σ : Type} : Nat → List (RunFunc σ) → List (RunFunc (σ × List Nat))
  | _, [] => []
  | n, fn :: rest => logged n fn :: loggedFrom (n + 1) rest

/-- Reference for `NeedsDatasets` once the token check did not skip: create the
client, list the datasets, report an empty list. -/
def datasetsCheck (env : Env) (f : Factory) : Factory × Option Error :=
  let withClient := { f with Calls := f.Calls ++ [Call.Client] }
  let withList := { f with Calls := f.Calls ++ [Call.Client, Call.DatasetsList] }
  match env.Client f, env.DatasetsList withClient with
  | some err, _ => (withClient, some err)
  | none, (_, some err) => (withList, some err)
  | none, ([], none) =>
    execTemplateSilent env withList Template.noDatasetsMsg
      [("Deployment", f.Config.ActiveDeployment)]
  | none, (_ :: _, none) => (withList, none)

/-- Reference for `NeedsDatasets`, following the specification: skip when an
active deployment resolves whose token is not a personal access token,
otherwise perform the dataset check. -/
def NeedsDatasetsRef (env : Env) : RunFunc Factory := fun _ _ f =>
  match env.GetActiveDeployment f.Config with
  | (dep, true) => if env.IsPersonalToken dep.Token then datasetsCheck env f else (f, none)
  | (_, false) => datasetsCheck env f

/-- Variant of `NeedsActiveDeployment` whose non-interactive check is
`!f.IO.IsStdinTTY()` alone. -/
def NeedsActiveDeploymentTTYOnly (env : Env) : RunFunc Factory := fun cmd _ f =>
  if (env.GetActiveDeployment f.Config).2 then
    (f, none)
  else if f.Config.ActiveDeployment ≠ "" then
    execTemplateSilent env f Template.badActiveDeploymentMsg
      [("Deployment", f.Config.ActiveDeployment), ("CommandPath", cmd.CommandPath)]
  else if f.Config.Deployments.length = 0 then
    execTemplateSilent env f Template.noDeploymentsMsg []
  else if !f.StdinTTY then
    (f, some (NewFlagErrorf "--deployment or -D required when not running interactively"))
  else
    let options := env.DeploymentAliases f.Config
    let r := env.AskOne f options
    ({ f with
        Config := { f.Config with ActiveDeployment := r.1 },
        Calls := f.Calls ++ [Call.AskOne "Which deployment to use?" options] },
     r.2)

/-- The prompt event of `NeedsActiveDeployment` in state `f`. -/
def promptCall (env : Env) (f : Factory) : Call :=
  Call.AskOne "Which deployment to use?" (env.DeploymentAliases f.Config)

/-! ## Sample inputs -/

/-- A sample environment: the active deployment is the entry of the map under
the active alias, personal tokens start with `xapt-`, rendering writes the
template's first line and succeeds, the API lists no dataset, the prompt
answers with the first option. -/
def sampleEnv : Env where
  GetActiveDeployment := fun c =>
    match c.Deployments.lookup c.ActiveDeployment with
    | some d => (d, true)
    | none => (⟨"", "", ""⟩, false)
  DeploymentAliases := fun c => c.Deployments.map Prod.fst
  IsPersonalToken := fun t => "xapt-".toList.isPrefixOf t.toList
  CloudURL := "https://cloud.example"
  Parse := fun _ _ => none
  Execute := fun _ t _ => (t.firstLine, none)
  Client := fun _ => none
  DatasetsList := fun _ => ([], none)
  AskOne := fun _ opts => (opts.headD "", none)
  Load := fun _ => (⟨[], "from-file", "org-file", "token-file", "url-file", true, true⟩, none)

/-- The sample environment with an error output that rejects every write. -/
def closedErrOutEnv : Env :=
  { sampleEnv with Execute := fun _ _ _ => ("", some (Error.other 9)) }

/-- A configuration without deployments and without an active alias. -/
def emptyConfig : Config := ⟨[], "", "", "", "", false, false⟩

/-- A configuration with one deployment `dev` holding an API token, no active
alias. -/
def oneDeployment : Config :=
  ⟨[("dev", ⟨"https://dev.example", "xaat-1", ""⟩)], "", "", "", "", false, false⟩

/-- A factory around a configuration: terminal state, empty output and call
log, one string cell. -/
def sampleFactory (c : Config) (tty : Bool) (cell : String) : Factory :=
  ⟨c, tty, false, [], [], [cell]⟩

/-- A command whose flags are all unset, except those listed. -/
def sampleCommand (given : List (String × String)) : Command where
  CommandPath := "cli dataset list"
  Flag := fun name =>
    match given.lookup name with
    | some v => ⟨true, v⟩
    | none => ⟨false, ""⟩

end Cli

namespace Cli

/-! ## Lemmas on template rendering -/

theorem execTemplateSilent_error_ne_none (env : Env) (f : Factory) (t : Template) (d : Data) :
    (execTemplateSilent env f t d).2 ≠ none := by
  unfold execTemplateSilent
  cases hp : env.Parse f t with
  | some e => simp
  | none =>
    rcases he : env.Execute f t d with ⟨out, _ | e⟩ <;> simp

theorem execTemplateSilent_frame (env : Env) (f : Factory) (t : Template) (d : Data) :
    (execTemplateSilent env f t d).1.Calls = f.Calls ∧
    (execTemplateSilent env f t d).1.Config = f.Config := by
  unfold execTemplateSilent
  cases hp : env.Parse f t with
  | some e => simp
  | none =>
    rcases he : env.Execute f t d with ⟨out, _ | e⟩ <;> simp

theorem execTemplateSilent_of_renders (env : Env) (f : Factory) (t : Template) (d : Data)
    (h : renders env f t d) :
    execTemplateSilent env f t d =
      ({ f with ErrOut := f.ErrOut ++ [rendered env f t d] }, some Error.ErrSilent) := by
  obtain ⟨hp, he⟩ := h
  unfold execTemplateSilent rendered
  rw [hp]
  rcases hx : env.Execute f t d with ⟨out, _ | e⟩
  · rfl
  · rw [hx] at he; simp at he

/-! ## Lemmas on chaining -/

theorem stateAfter_cons {σ : Type} (fn : RunFunc σ) (rest : List (RunFunc σ)) (cmd : Command)
    (args : List String) (s : σ) :
    stateAfter (fn :: rest) cmd args s = stateAfter rest cmd args (fn cmd args s).1 := rfl

theorem resultAt_zero {σ : Type} (fn : RunFunc σ) (rest : List (RunFunc σ)) (cmd : Command)
    (args : List String) (s : σ) :
    resultAt (fn :: rest) cmd args s 0 = (fn cmd args s).2 := rfl

theorem resultAt_succ {σ : Type} (fn : RunFunc σ) (rest : List (RunFunc σ)) (cmd : Command)
    (args : List String) (s : σ) (j : Nat) :
    resultAt (fn :: rest) cmd args s (j + 1) = resultAt rest cmd args (fn cmd args s).1 j := rfl

theorem logged_chain_cases {σ : Type} (fns : List (RunFunc σ)) (cmd : Command)
    (args : List String) :
    ∀ (n : Nat) (l : List Nat) (s : σ),
      (∃ k err, k < fns.length ∧
          (∀ j, j < k → resultAt fns cmd args s j = none) ∧
          resultAt fns cmd args s k = some err ∧
          ChainRunFuncs (loggedFrom n fns) cmd args (s, l) =
            ((stateAfter (fns.take (k + 1)) cmd args s, l ++ List.range' n (k + 1)), some err)) ∨
      ((∀ j, j < fns.length → resultAt fns cmd args s j = none) ∧
        ChainRunFuncs (loggedFrom n fns) cmd args (s, l) =
          ((stateAfter fns cmd args s, l ++ List.range' n fns.length), none)) := by
  induction fns with
  | nil =>
    intro n l s
    right
    refine ⟨fun j hj => absurd hj (Nat.not_lt_zero j), ?_⟩
    simp [loggedFrom, ChainRunFuncs, stateAfter]
  | cons fn rest ih =>
    intro n l s
    cases hfn : (fn cmd args s).2 with
    | some err =>
      left
      refine ⟨0, err, by simp, fun j hj => absurd hj (Nat.not_lt_zero j), ?_, ?_⟩
      · rw [resultAt_zero, hfn]
      · simp [loggedFrom, ChainRunFuncs, logged, hfn, stateAfter]
    | none =>
      have hstep : ChainRunFuncs (loggedFrom n (fn :: rest)) cmd args (s, l) =
          ChainRunFuncs (loggedFrom (n + 1) rest) cmd args ((fn cmd args s).1, l ++ [n]) := by
        simp [loggedFrom, ChainRunFuncs, logged, hfn]
      rcases ih (n + 1) (l ++ [n]) (fn cmd args s).1 with ⟨k, err, hk, hbefore, hat, hres⟩ | ⟨hall, hres⟩
      · left
        refine ⟨k + 1, err, by simpa using hk, ?_, ?_, ?_⟩
        · intro j hj
          cases j with
          | zero => rw [resultAt_zero, hfn]
          | succ j => rw [resultAt_succ]; exact hbefore j (by omega)
        · rw [resultAt_succ]; exact hat
        · rw [hstep, hres, List.take_succ_cons, stateAfter_cons]
          simp [List.range'_succ]
      · right
        refine ⟨?_, ?_⟩
        · intro j hj
          cases j with
          | zero => rw [resultAt_zero, hfn]
          | succ j => rw [resultAt_succ]; exact hall j (by simpa using hj)
        · rw [hstep, hres, stateAfter_cons]
          simp [List.range'_succ]

theorem logged_chain_erase {σ : Type} (fns : List (RunFunc σ)) (cmd : Command)
    (args : List String) :
    ∀ (n : Nat) (l : List Nat) (s : σ),
      ChainRunFuncs fns cmd args s =
        ((ChainRunFuncs (loggedFrom n fns) cmd args (s, l)).1.1,
         (ChainRunFuncs (loggedFrom n fns) cmd args (s, l)).2) := by
  induction fns with
  | nil => intro n l s; rfl
  | cons fn rest ih =>
    intro n l s
    rcases hfn : fn cmd args s with ⟨s', _ | err⟩
    · simp only [loggedFrom, ChainRunFuncs, logged, hfn]
      exact ih (n + 1) (l ++ [n]) s'
    · simp [loggedFrom, ChainRunFuncs, logged, hfn]

/-! ## Claims -/

/-- C1: `ChainRunFuncs` invokes the functions in list order, stops at the first
that returns a non-nil error and returns exactly that error without invoking a
later function; it returns nil exactly when every function returned nil, and the
empty chain returns nil.  The invocation log of the instrumented chain is the
list of positions `0, ..., k` up to the first failing position `k` (all
positions when none fails), and erasing the log gives the plain chain. -/
theorem ChainRunFuncs_first_error {σ : Type} (fns : List (RunFunc σ)) (cmd : Command)
    (args : List String) (s : σ) :
    ChainRunFuncs fns cmd args s =
        ((ChainRunFuncs (loggedFrom 0 fns) cmd args (s, [])).1.1,
         (ChainRunFuncs (loggedFrom 0 fns) cmd args (s, [])).2) ∧
    ((∃ k err, k < fns.length ∧
          (∀ j, j < k → resultAt fns cmd args s j = none) ∧
          resultAt fns cmd args s k = some err ∧
          ChainRunFuncs (loggedFrom 0 fns) cmd args (s, []) =
            ((stateAfter (fns.take (k + 1)) cmd args s, List.range (k + 1)), some err)) ∨
      ((∀ j, j < fns.length → resultAt fns cmd args s j = none) ∧
        ChainRunFuncs (loggedFrom 0 fns) cmd args (s, []) =
          ((stateAfter fns cmd args s, List.range fns.length), none))) ∧
    ((ChainRunFuncs fns cmd args s).2 = none ↔
      ∀ j, j < fns.length → resultAt fns cmd args s j = none) ∧
    ChainRunFuncs ([] : List (RunFunc σ)) cmd args s = (s, none) := by
  have herase := logged_chain_erase fns cmd args 0 [] s
  have hcases := logged_chain_cases fns cmd args 0 [] s
  simp only [List.nil_append, ← List.range_eq_range'] at hcases
  refine ⟨herase, hcases, ?_, rfl⟩
  rw [herase]
  rcases hcases with ⟨k, err, hk, _, hat, hres⟩ | ⟨hall, hres⟩
  · rw [hres]
    constructor
    · intro h; simp at h
    · intro h; rw [h k hk] at hat; simp at hat
  · rw [hres]
    exact ⟨fun _ => hall, fun _ => rfl⟩

/-- C2: with an empty deployment mapping and no resolving active deployment,
the chain of `NeedsActiveDeployment` and `NeedsDatasets` returns the non-nil
error of `NeedsActiveDeployment`, invokes only the first function, and makes no
client or dataset call, whatever the alias and whatever rendering does. -/
theorem no_deployments_no_api_call (env : Env) (cmd : Command) (args : List String)
    (f : Factory) (hempty : f.Config.Deployments = [])
    (hnot : (env.GetActiveDeployment f.Config).2 = false) :
    (ChainRunFuncs [NeedsActiveDeployment env, NeedsDatasets env] cmd args f).2 ≠ none ∧
    ChainRunFuncs [NeedsActiveDeployment env, NeedsDatasets env] cmd args f =
      NeedsActiveDeployment env cmd args f ∧
    (ChainRunFuncs [NeedsActiveDeployment env, NeedsDatasets env] cmd args f).1.Calls =
      f.Calls ∧
    (ChainRunFuncs (loggedFrom 0 [NeedsActiveDeployment env, NeedsDatasets env]) cmd args
      (f, [])).1.2 = [0] := by
  have hfirst : ∃ t d, NeedsActiveDeployment env cmd args f = execTemplateSilent env f t d := by
    unfold NeedsActiveDeployment
    simp only [hnot, hempty, List.length_nil]
    by_cases ha : f.Config.ActiveDeployment = ""
    · exact ⟨Template.noDeploymentsMsg, [], by simp [ha]⟩
    · exact ⟨Template.badActiveDeploymentMsg,
        [("Deployment", f.Config.ActiveDeployment), ("CommandPath", cmd.CommandPath)],
        by simp [ha]⟩
  obtain ⟨t, d, hrun⟩ := hfirst
  have hne := execTemplateSilent_error_ne_none env f t d
  have hframe := (execTemplateSilent_frame env f t d).1
  rcases hx : execTemplateSilent env f t d with ⟨f', _ | err⟩
  · rw [hx] at hne; exact absurd rfl hne
  · rw [hx] at hframe
    have hchain : ChainRunFuncs [NeedsActiveDeployment env, NeedsDatasets env] cmd args f =
        (f', some err) := by
      simp [ChainRunFuncs, hrun, hx]
    refine ⟨?_, ?_, ?_, ?_⟩
    · rw [hchain]; simp
    · rw [hchain, hrun, hx]
    · rw [hchain]; exact hframe
    · simp [loggedFrom, ChainRunFuncs, logged, hrun, hx]

/-- Witness for C2: no deployments, no alias, sample environment. -/
theorem no_deployments_no_api_call_witness :
    (sampleFactory emptyConfig true "").Config.Deployments = [] ∧
    (sampleEnv.GetActiveDeployment (sampleFactory emptyConfig true "").Config).2 = false ∧
    (ChainRunFuncs [NeedsActiveDeployment sampleEnv, NeedsDatasets sampleEnv]
      (sampleCommand []) [] (sampleFactory emptyConfig true "")).1.Calls = [] :=
  ⟨rfl, rfl,
    (no_deployments_no_api_call sampleEnv (sampleCommand []) []
      (sampleFactory emptyConfig true "") rfl rfl).2.2.1⟩

/-- Shape of a nil return of `PersistentPreRunE`: the overrides applied, in
source order, to the loaded configuration. -/
theorem PersistentPreRunE_nil (env : Env) (cmd : Command) (args : List String)
    (f f' : Factory) (h : PersistentPreRunE env cmd args f = (f', none)) :
    f'.Config.ActiveDeployment =
      (if (cmd.Flag "deployment").Changed then (cmd.Flag "deployment").Value
       else (loadedConfig env cmd f).ActiveDeployment) ∧
    f'.Config.OrganizationIDOverride =
      (if (cmd.Flag "org-id").Changed then (cmd.Flag "org-id").Value
       else (loadedConfig env cmd f).OrganizationIDOverride) ∧
    f'.Config.TokenOverride =
      (if (cmd.Flag "token").Changed then (cmd.Flag "token").Value
       else (loadedConfig env cmd f).TokenOverride) ∧
    f'.Config.URLOverride =
      (if (cmd.Flag "url").Changed then (cmd.Flag "url").Value
       else (loadedConfig env cmd f).URLOverride) ∧
    f'.Config.Insecure = (cmd.Flag "insecure").Changed ∧
    f'.Config.ForceCloud = (cmd.Flag "force-cloud").Changed := by
  unfold PersistentPreRunE at h
  unfold loadedConfig
  by_cases hc : (cmd.Flag "config").Changed = true
  · simp only [hc, if_true] at h ⊢
    cases hl : (env.Load (cmd.Flag "config").Value).2 with
    | some err => simp [hl] at h
    | none =>
      simp only [hl, Prod.mk.injEq, and_true] at h
      subst h
      refine ⟨?_, ?_, ?_, ?_, rfl, rfl⟩ <;> dsimp only <;> split_ifs <;> rfl
  · have hc' : (cmd.Flag "config").Changed = false := by simpa using hc
    simp only [hc', Bool.false_eq_true, if_false, Prod.mk.injEq, and_true] at h ⊢
    subst h
    refine ⟨?_, ?_, ?_, ?_, rfl, rfl⟩ <;> dsimp only <;> split_ifs <;> rfl

/-- C3: after the root `PersistentPreRunE` returns nil, each of
`ActiveDeployment`, `OrganizationIDOverride`, `TokenOverride` and `URLOverride`
equals the value of its flag (`deployment`, `org-id`, `token`, `url`) when that
flag was given, whatever the configuration held and also when `--config`
reloaded it in the same call, and is exactly the loaded configuration's field
when the flag was not given. -/
theorem flag_override_wins (env : Env) (cmd : Command) (args : List String)
    (f f' : Factory) (h : PersistentPreRunE env cmd args f = (f', none)) :
    f'.Config.ActiveDeployment =
      (if (cmd.Flag "deployment").Changed then (cmd.Flag "deployment").Value
       else (loadedConfig env cmd f).ActiveDeployment) ∧
    f'.Config.OrganizationIDOverride =
      (if (cmd.Flag "org-id").Changed then (cmd.Flag "org-id").Value
       else (loadedConfig env cmd f).OrganizationIDOverride) ∧
    f'.Config.TokenOverride =
      (if (cmd.Flag "token").Changed then (cmd.Flag "token").Value
       else (loadedConfig env cmd f).TokenOverride) ∧
    f'.Config.URLOverride =
      (if (cmd.Flag "url").Changed then (cmd.Flag "url").Value
       else (loadedConfig env cmd f).URLOverride) := by
  obtain ⟨h1, h2, h3, h4, _, _⟩ := PersistentPreRunE_nil env cmd args f f' h
  exact ⟨h1, h2, h3, h4⟩

/-- Witness for C3: `--config` reloads the configuration, `--deployment` and
`--token` are given, `--org-id` and `--url` are not. -/
theorem flag_override_wins_witness :
    PersistentPreRunE sampleEnv
        (sampleCommand [("config", "alt.toml"), ("deployment", "dev"), ("token", "xapt-9")]) []
        (sampleFactory oneDeployment true "") =
      (⟨⟨[], "dev", "org-file", "xapt-9", "url-file", false, false⟩, true, true, [], [], [""]⟩,
        none) ∧
    (⟨⟨[], "dev", "org-file", "xapt-9", "url-file", false, false⟩,
        true, true, [], [], [""]⟩ : Factory).Config.ActiveDeployment =
      (if ((sampleCommand [("config", "alt.toml"), ("deployment", "dev"),
            ("token", "xapt-9")]).Flag "deployment").Changed
       then ((sampleCommand [("config", "alt.toml"), ("deployment", "dev"),
            ("token", "xapt-9")]).Flag "deployment").Value
       else (loadedConfig sampleEnv (sampleCommand [("config", "alt.toml"),
            ("deployment", "dev"), ("token", "xapt-9")])
            (sampleFactory oneDeployment true "")).ActiveDeployment) :=
  ⟨by decide,
    (flag_override_wins sampleEnv
      (sampleCommand [("config", "alt.toml"), ("deployment", "dev"), ("token", "xapt-9")]) []
      (sampleFactory oneDeployment true "") _ (by decide)).1⟩

/-- C10: after the root `PersistentPreRunE` returns nil, `Insecure` and
`ForceCloud` equal whether `--insecure` and `--force-cloud` were given, whatever
value was passed to the flag and whatever the loaded configuration held. -/
theorem insecure_forcecloud_follow_changed (env : Env) (cmd : Command) (args : List String)
    (f f' : Factory) (h : PersistentPreRunE env cmd args f = (f', none)) :
    f'.Config.Insecure = (cmd.Flag "insecure").Changed ∧
    f'.Config.ForceCloud = (cmd.Flag "force-cloud").Changed := by
  obtain ⟨_, _, _, _, h5, h6⟩ := PersistentPreRunE_nil env cmd args f f' h
  exact ⟨h5, h6⟩

/-- Witness for C10: `--insecure=false` with a reloaded configuration whose
`Insecure` and `ForceCloud` are both set: `Insecure` becomes true, `ForceCloud`
false. -/
theorem insecure_forcecloud_follow_changed_witness :
    (sampleEnv.Load "alt.toml").1.Insecure = true ∧
    (sampleEnv.Load "alt.toml").1.ForceCloud = true ∧
    ((sampleCommand [("config", "alt.toml"), ("insecure", "false")]).Flag "insecure") =
      ⟨true, "false"⟩ ∧
    PersistentPreRunE sampleEnv (sampleCommand [("config", "alt.toml"), ("insecure", "false")])
        [] (sampleFactory oneDeployment true "") =
      (⟨⟨[], "from-file", "org-file", "token-file", "url-file", true, false⟩,
          true, true, [], [], [""]⟩, none) ∧
    ((⟨⟨[], "from-file", "org-file", "token-file", "url-file", true, false⟩,
        true, true, [], [], [""]⟩ : Factory).Config.Insecure =
      ((sampleCommand [("config", "alt.toml"), ("insecure", "false")]).Flag "insecure").Changed ∧
     (⟨⟨[], "from-file", "org-file", "token-file", "url-file", true, false⟩,
        true, true, [], [], [""]⟩ : Factory).Config.ForceCloud =
      ((sampleCommand [("config", "alt.toml"), ("insecure", "false")]).Flag
        "force-cloud").Changed) :=
  ⟨rfl, rfl, by decide, by decide,
    insecure_forcecloud_follow_changed sampleEnv
      (sampleCommand [("config", "alt.toml"), ("insecure", "false")]) []
      (sampleFactory oneDeployment true "") _ (by decide)⟩

/-- C4: the code at the failing input.  One deployment configured, no alias,
stdin not a terminal, no active deployment resolving, rendering succeeding:
where the doc comment of `NeedsActiveDeployment` promises a printed error and a
silent error, the function writes nothing to the error output and returns the
flag error built by `NewFlagErrorf`, which is not `ErrSilent`. -/
theorem NeedsActiveDeployment_noninteractive_not_silent :
    (sampleEnv.GetActiveDeployment (sampleFactory oneDeployment false "").Config).2 = false ∧
    (∀ t d, renders sampleEnv (sampleFactory oneDeployment false "") t d) ∧
    (sampleFactory oneDeployment false "").StdinTTY = false ∧
    NeedsActiveDeployment sampleEnv (sampleCommand []) [] (sampleFactory oneDeployment false "") =
      (sampleFactory oneDeployment false "",
        some (NewFlagErrorf "--deployment or -D required when not running interactively")) ∧
    (NeedsActiveDeployment sampleEnv (sampleCommand []) []
      (sampleFactory oneDeployment false "")).1.ErrOut = [] ∧
    (NeedsActiveDeployment sampleEnv (sampleCommand []) []
      (sampleFactory oneDeployment false "")).2 ≠ some Error.ErrSilent :=
  ⟨rfl, fun _ _ => ⟨rfl, rfl⟩, rfl, by decide, by decide, by decide⟩

/-- The two sibling error branches of `NeedsActiveDeployment` do what its doc
comment says: when no active deployment resolves and rendering succeeds, a
non-empty alias and an empty deployment mapping both print a message to the
error output and return `ErrSilent`. -/
theorem NeedsActiveDeployment_silent_branches (env : Env) (cmd : Command)
    (args : List String) (f : Factory) (hnot : (env.GetActiveDeployment f.Config).2 = false)
    (hrender : ∀ t d, renders env f t d) :
    (f.Config.ActiveDeployment ≠ "" →
      NeedsActiveDeployment env cmd args f =
        ({ f with ErrOut := f.ErrOut ++ [rendered env f Template.badActiveDeploymentMsg
            [("Deployment", f.Config.ActiveDeployment), ("CommandPath", cmd.CommandPath)]] },
          some Error.ErrSilent)) ∧
    (f.Config.ActiveDeployment = "" → f.Config.Deployments = [] →
      NeedsActiveDeployment env cmd args f =
        ({ f with ErrOut := f.ErrOut ++ [rendered env f Template.noDeploymentsMsg []] },
          some Error.ErrSilent)) := by
  refine ⟨?_, ?_⟩
  · intro ha
    unfold NeedsActiveDeployment
    simp only [hnot, Bool.false_eq_true, if_false, ne_eq, ha, not_false_eq_true, if_true]
    exact execTemplateSilent_of_renders env f _ _ (hrender _ _)
  · intro ha he
    unfold NeedsActiveDeployment
    simp only [hnot, Bool.false_eq_true, if_false, ne_eq, ha, not_true_eq_false, he,
      List.length_nil, if_true]
    exact execTemplateSilent_of_renders env f _ _ (hrender _ _)

/-- C9, as stated, fails: an unknown non-empty alias with an error output that
rejects the write yields the write error of the template execution, not the
silent error. -/
theorem NeedsActiveDeployment_bad_alias_render_failure :
    (closedErrOutEnv.GetActiveDeployment
      (sampleFactory ⟨[], "prod", "", "", "", false, false⟩ true "").Config).2 = false ∧
    (sampleFactory ⟨[], "prod", "", "", "", false, false⟩ true "").Config.ActiveDeployment ≠ "" ∧
    (NeedsActiveDeployment closedErrOutEnv (sampleCommand []) []
      (sampleFactory ⟨[], "prod", "", "", "", false, false⟩ true "")).2 = some (Error.other 9) ∧
    (NeedsActiveDeployment closedErrOutEnv (sampleCommand []) []
      (sampleFactory ⟨[], "prod", "", "", "", false, false⟩ true "")).2 ≠ some Error.ErrSilent :=
  ⟨rfl, by decide, by decide, by decide⟩

/-- C9, amended: `NeedsActiveDeployment` reaches the prompt exactly when no
active deployment resolves, the alias is empty, at least one deployment is
configured and stdin is a terminal, and otherwise makes no call; a non-empty
alias that does not resolve always takes the `badActiveDeploymentMsg` branch,
also without deployments, which returns a non-nil error that is `ErrSilent`
when rendering succeeds; and the function equals its variant whose
non-interactive check is the terminal test alone. -/
theorem NeedsActiveDeployment_prompt_iff (env : Env) (cmd : Command) (args : List String)
    (f : Factory) :
    ((NeedsActiveDeployment env cmd args f).1.Calls = f.Calls ++ [promptCall env f] ↔
      (env.GetActiveDeployment f.Config).2 = false ∧ f.Config.ActiveDeployment = "" ∧
        f.Config.Deployments ≠ [] ∧ f.StdinTTY = true) ∧
    ((NeedsActiveDeployment env cmd args f).1.Calls = f.Calls ∨
      (NeedsActiveDeployment env cmd args f).1.Calls = f.Calls ++ [promptCall env f]) ∧
    ((env.GetActiveDeployment f.Config).2 = false ∧ f.Config.ActiveDeployment ≠ "" →
      NeedsActiveDeployment env cmd args f =
          execTemplateSilent env f Template.badActiveDeploymentMsg
            [("Deployment", f.Config.ActiveDeployment), ("CommandPath", cmd.CommandPath)] ∧
        (NeedsActiveDeployment env cmd args f).2 ≠ none ∧
        (renders env f Template.badActiveDeploymentMsg
            [("Deployment", f.Config.ActiveDeployment), ("CommandPath", cmd.CommandPath)] →
          NeedsActiveDeployment env cmd args f =
            ({ f with ErrOut := f.ErrOut ++ [rendered env f Template.badActiveDeploymentMsg
                [("Deployment", f.Config.ActiveDeployment),
                  ("CommandPath", cmd.CommandPath)]] },
              some Error.ErrSilent))) ∧
    NeedsActiveDeployment env cmd args f = NeedsActiveDeploymentTTYOnly env cmd args f := by
  have hbad : (env.GetActiveDeployment f.Config).2 = false ∧ f.Config.ActiveDeployment ≠ "" →
      NeedsActiveDeployment env cmd args f =
        execTemplateSilent env f Template.badActiveDeploymentMsg
          [("Deployment", f.Config.ActiveDeployment), ("CommandPath", cmd.CommandPath)] := by
    rintro ⟨hnot, ha⟩
    unfold NeedsActiveDeployment
    simp [hnot, ha]
  refine ⟨?_, ?_, ?_, ?_⟩
  · unfold NeedsActiveDeployment promptCall
    cases hok : (env.GetActiveDeployment f.Config).2 with
    | true => simp
    | false =>
      by_cases ha : f.Config.ActiveDeployment = ""
      · by_cases he : f.Config.Deployments = []
        · simp [ha, he, (execTemplateSilent_frame env f _ _).1]
        · have hlen : f.Config.Deployments.length ≠ 0 := fun h0 => he (List.length_eq_zero.mp h0)
          cases htty : f.StdinTTY with
          | true => simp [ha, he, hlen]
          | false => simp [ha, he, hlen]
      · simp [ha, (execTemplateSilent_frame env f _ _).1]
  · unfold NeedsActiveDeployment promptCall
    cases hok : (env.GetActiveDeployment f.Config).2 with
    | true => simp
    | false =>
      by_cases ha : f.Config.ActiveDeployment = ""
      · by_cases he : f.Config.Deployments = []
        · simp [ha, he, (execTemplateSilent_frame env f _ _).1]
        · have hlen : f.Config.Deployments.length ≠ 0 := fun h0 => he (List.length_eq_zero.mp h0)
          cases htty : f.StdinTTY <;> simp [ha, hlen]
      · simp [ha, (execTemplateSilent_frame env f _ _).1]
  · intro h
    refine ⟨hbad h, ?_, ?_⟩
    · rw [hbad h]; exact execTemplateSilent_error_ne_none env f _ _
    · intro hr
      rw [hbad h]; exact execTemplateSilent_of_renders env f _ _ hr
  · unfold NeedsActiveDeployment NeedsActiveDeploymentTTYOnly
    cases hok : (env.GetActiveDeployment f.Config).2 with
    | true => simp
    | false =>
      by_cases ha : f.Config.ActiveDeployment = ""
      · simp [ha]
      · simp [ha]

/-- Witness for the amended C9: one deployment, no alias, a terminal on stdin:
the prompt is reached. -/
theorem NeedsActiveDeployment_prompt_iff_witness :
    (NeedsActiveDeployment sampleEnv (sampleCommand []) []
      (sampleFactory oneDeployment true "")).1.Calls =
        [Call.AskOne "Which deployment to use?" ["dev"]] ∧
    ((NeedsActiveDeployment sampleEnv (sampleCommand []) []
        (sampleFactory oneDeployment true "")).1.Calls =
          (sampleFactory oneDeployment true "").Calls ++
            [promptCall sampleEnv (sampleFactory oneDeployment true "")] ↔
      (sampleEnv.GetActiveDeployment (sampleFactory oneDeployment true "").Config).2 = false ∧
        (sampleFactory oneDeployment true "").Config.ActiveDeployment = "" ∧
        (sampleFactory oneDeployment true "").Config.Deployments ≠ [] ∧
        (sampleFactory oneDeployment true "").StdinTTY = true) :=
  ⟨by decide,
    (NeedsActiveDeployment_prompt_iff sampleEnv (sampleCommand []) []
      (sampleFactory oneDeployment true "")).1⟩

/-- Key presence computed by `hasKey` is membership among the keys. -/
theorem hasKey_iff (m : List (String × Deployment)) (k : String) :
    hasKey m k = true ↔ k ∈ m.map Prod.fst := by
  unfold hasKey
  induction m with
  | nil => simp
  | cons e es ih =>
    obtain ⟨a, b⟩ := e
    by_cases hk : k = a
    · subst hk; simp [List.lookup_cons]
    · have hb : (k == a) = false := by simpa using hk
      simp only [List.lookup_cons, hb, List.map_cons, List.mem_cons, hk, false_or]
      exact ih

/-- C5: `NeedsValidDeployment` returns nil and prints nothing exactly when the
alias read through the pointer is empty or a key of the deployment mapping;
otherwise it renders `badDeploymentMsg` with that alias, returning a non-nil
error that is `ErrSilent`, after printing the message, when rendering succeeds.
The alias is the content of the pointed cell when the function runs: run after
the cell was overwritten with `v`, the same run function decides on `v`. -/
theorem NeedsValidDeployment_iff (env : Env) (aliasPtr : Nat) (cmd : Command)
    (args : List String) (f : Factory) :
    (((NeedsValidDeployment env aliasPtr cmd args f).2 = none ∧
        (NeedsValidDeployment env aliasPtr cmd args f).1.ErrOut = f.ErrOut) ↔
      (deref f aliasPtr = "" ∨ deref f aliasPtr ∈ f.Config.Deployments.map Prod.fst)) ∧
    ((deref f aliasPtr = "" ∨ deref f aliasPtr ∈ f.Config.Deployments.map Prod.fst) →
      NeedsValidDeployment env aliasPtr cmd args f = (f, none)) ∧
    (¬ (deref f aliasPtr = "" ∨ deref f aliasPtr ∈ f.Config.Deployments.map Prod.fst) →
      NeedsValidDeployment env aliasPtr cmd args f =
          execTemplateSilent env f Template.badDeploymentMsg
            [("Deployment", deref f aliasPtr)] ∧
        (NeedsValidDeployment env aliasPtr cmd args f).2 ≠ none ∧
        (renders env f Template.badDeploymentMsg [("Deployment", deref f aliasPtr)] →
          NeedsValidDeployment env aliasPtr cmd args f =
            ({ f with ErrOut := f.ErrOut ++
                [rendered env f Template.badDeploymentMsg [("Deployment", deref f aliasPtr)]] },
              some Error.ErrSilent))) ∧
    (∀ v : String, aliasPtr < f.Heap.length →
      ((NeedsValidDeployment env aliasPtr cmd args
          { f with Heap := f.Heap.set aliasPtr v }).2 = none ↔
        (v = "" ∨ v ∈ f.Config.Deployments.map Prod.fst))) := by
  have hgood : ∀ g : Factory,
      (deref g aliasPtr = "" ∨ deref g aliasPtr ∈ g.Config.Deployments.map Prod.fst) →
      NeedsValidDeployment env aliasPtr cmd args g = (g, none) := by
    intro g h
    unfold NeedsValidDeployment
    rcases h with h | h
    · simp [h]
    · simp [(hasKey_iff _ _).mpr h]
  have hbad : ∀ g : Factory,
      ¬ (deref g aliasPtr = "" ∨ deref g aliasPtr ∈ g.Config.Deployments.map Prod.fst) →
      NeedsValidDeployment env aliasPtr cmd args g =
        execTemplateSilent env g Template.badDeploymentMsg
          [("Deployment", deref g aliasPtr)] := by
    intro g h
    have h1 : deref g aliasPtr ≠ "" := fun h' => h (Or.inl h')
    have h2 : hasKey g.Config.Deployments (deref g aliasPtr) = false := by
      cases hk : hasKey g.Config.Deployments (deref g aliasPtr) with
      | false => rfl
      | true => exact absurd (Or.inr ((hasKey_iff _ _).mp hk)) h
    unfold NeedsValidDeployment
    simp [h1, h2]
  have hiff : ∀ g : Factory,
      (NeedsValidDeployment env aliasPtr cmd args g).2 = none ↔
        (deref g aliasPtr = "" ∨ deref g aliasPtr ∈ g.Config.Deployments.map Prod.fst) := by
    intro g
    constructor
    · intro hnil
      by_contra hcon
      rw [hbad g hcon] at hnil
      exact execTemplateSilent_error_ne_none env g _ _ hnil
    · intro h
      rw [hgood g h]
  refine ⟨?_, hgood f, ?_, ?_⟩
  · constructor
    · rintro ⟨hnil, _⟩
      exact (hiff f).mp hnil
    · intro h
      rw [hgood f h]
      exact ⟨rfl, rfl⟩
  · intro h
    refine ⟨hbad f h, ?_, ?_⟩
    · rw [hbad f h]; exact execTemplateSilent_error_ne_none env f _ _
    · intro hr
      rw [hbad f h]; exact execTemplateSilent_of_renders env f _ _ hr
  · intro v hlt
    have hd : deref { f with Heap := f.Heap.set aliasPtr v } aliasPtr = v := by
      simp [deref, List.getD_eq_getElem?_getD, hlt]
    have := hiff { f with Heap := f.Heap.set aliasPtr v }
    rw [hd] at this
    exact this

/-- Witness for C5: the cell holds the unknown alias `prod`; the message is
printed and `ErrSilent` returned.  Overwriting the cell with `dev` before the
run makes the same run function return nil. -/
theorem NeedsValidDeployment_iff_witness :
    NeedsValidDeployment sampleEnv 0 (sampleCommand []) [] (sampleFactory oneDeployment true "prod") =
      (⟨oneDeployment, true, false, [Template.firstLine Template.badDeploymentMsg], [],
          ["prod"]⟩, some Error.ErrSilent) ∧
    ((NeedsValidDeployment sampleEnv 0 (sampleCommand []) []
        { sampleFactory oneDeployment true "prod" with
          Heap := (sampleFactory oneDeployment true "prod").Heap.set 0 "dev" }).2 = none ↔
      ("dev" = "" ∨
        "dev" ∈ (sampleFactory oneDeployment true "prod").Config.Deployments.map Prod.fst)) :=
  ⟨by decide,
    (NeedsValidDeployment_iff sampleEnv 0 (sampleCommand []) []
      (sampleFactory oneDeployment true "prod")).2.2.2 "dev" (by decide)⟩

/-- C6: `NeedsDatasets` equals the reference `NeedsDatasetsRef` in every state.
The skip leaves the state untouched (no client, no API call); a client error and
a listing error are returned unchanged with nothing printed; an empty listing
renders `noDatasetsMsg`; a non-empty listing returns nil. -/
theorem NeedsDatasets_eq_reference (env : Env) (cmd : Command) (args : List String)
    (f : Factory) :
    NeedsDatasets env cmd args f = NeedsDatasetsRef env cmd args f ∧
    (((env.GetActiveDeployment f.Config).2 = true ∧
        env.IsPersonalToken (env.GetActiveDeployment f.Config).1.Token = false) →
      NeedsDatasets env cmd args f = (f, none)) ∧
    (¬ ((env.GetActiveDeployment f.Config).2 = true ∧
        env.IsPersonalToken (env.GetActiveDeployment f.Config).1.Token = false) →
      NeedsDatasets env cmd args f = datasetsCheck env f) ∧
    (∀ err, env.Client f = some err →
      datasetsCheck env f = ({ f with Calls := f.Calls ++ [Call.Client] }, some err)) ∧
    (∀ ds err, env.Client f = none →
      env.DatasetsList { f with Calls := f.Calls ++ [Call.Client] } = (ds, some err) →
      datasetsCheck env f =
        ({ f with Calls := f.Calls ++ [Call.Client, Call.DatasetsList] }, some err)) ∧
    (env.Client f = none →
      env.DatasetsList { f with Calls := f.Calls ++ [Call.Client] } = ([], none) →
      datasetsCheck env f =
        execTemplateSilent env { f with Calls := f.Calls ++ [Call.Client, Call.DatasetsList] }
          Template.noDatasetsMsg [("Deployment", f.Config.ActiveDeployment)]) ∧
    (∀ ds, env.Client f = none → ds ≠ [] →
      env.DatasetsList { f with Calls := f.Calls ++ [Call.Client] } = (ds, none) →
      datasetsCheck env f =
        ({ f with Calls := f.Calls ++ [Call.Client, Call.DatasetsList] }, none)) := by
  have hcheck : ¬ ((env.GetActiveDeployment f.Config).2 = true ∧
        env.IsPersonalToken (env.GetActiveDeployment f.Config).1.Token = false) →
      NeedsDatasets env cmd args f = datasetsCheck env f := by
    intro hskip
    have hcond : ((env.GetActiveDeployment f.Config).2 &&
        !env.IsPersonalToken (env.GetActiveDeployment f.Config).1.Token) = false := by
      cases h1 : (env.GetActiveDeployment f.Config).2 <;>
        cases h2 : env.IsPersonalToken (env.GetActiveDeployment f.Config).1.Token <;>
        simp_all
    unfold NeedsDatasets datasetsCheck
    simp only [hcond, Bool.false_eq_true, if_false]
    cases hc : env.Client f with
    | some err => rfl
    | none =>
      rcases hl : env.DatasetsList { f with Calls := f.Calls ++ [Call.Client] } with
        ⟨ds, _ | err⟩
      · cases ds with
        | nil => simp
        | cons d ds => simp
      · simp
  have hskip : ((env.GetActiveDeployment f.Config).2 = true ∧
        env.IsPersonalToken (env.GetActiveDeployment f.Config).1.Token = false) →
      NeedsDatasets env cmd args f = (f, none) := by
    rintro ⟨h1, h2⟩
    unfold NeedsDatasets
    simp [h1, h2]
  refine ⟨?_, hskip, hcheck, ?_, ?_, ?_, ?_⟩
  · by_cases h : (env.GetActiveDeployment f.Config).2 = true ∧
        env.IsPersonalToken (env.GetActiveDeployment f.Config).1.Token = false
    · rw [hskip h]
      unfold NeedsDatasetsRef
      rcases hg : env.GetActiveDeployment f.Config with ⟨dep, ok⟩
      rw [hg] at h
      obtain ⟨h1, h2⟩ := h
      simp only at h1 h2
      subst h1
      simp [h2]
    · rw [hcheck h]
      unfold NeedsDatasetsRef
      rcases hg : env.GetActiveDeployment f.Config with ⟨dep, ok⟩
      rw [hg] at h
      cases ok with
      | false => rfl
      | true =>
        cases hp : env.IsPersonalToken dep.Token with
        | true => simp [hp]
        | false => exact absurd ⟨rfl, hp⟩ h
  · intro err hc
    unfold datasetsCheck
    simp [hc]
  · intro ds err hc hl
    unfold datasetsCheck
    simp [hc, hl]
  · intro hc hl
    unfold datasetsCheck
    simp [hc, hl]
  · intro ds hc hne hl
    unfold datasetsCheck
    cases ds with
    | nil => exact absurd rfl hne
    | cons d ds => simp [hc, hl]

/-- Witness for C6: an API token on the active deployment skips the check without
any call; with a personal token the client is created, the empty listing is
reported and `ErrSilent` returned. -/
theorem NeedsDatasets_eq_reference_witness :
    NeedsDatasets sampleEnv (sampleCommand []) []
        (sampleFactory { oneDeployment with ActiveDeployment := "dev" } true "") =
      (sampleFactory { oneDeployment with ActiveDeployment := "dev" } true "", none) ∧
    NeedsDatasets sampleEnv (sampleCommand []) [] (sampleFactory emptyConfig true "") =
      (⟨emptyConfig, true, false, [Template.firstLine Template.noDatasetsMsg],
          [Call.Client, Call.DatasetsList], [""]⟩, some Error.ErrSilent) ∧
    NeedsDatasets sampleEnv (sampleCommand []) [] (sampleFactory emptyConfig true "") =
      NeedsDatasetsRef sampleEnv (sampleCommand []) [] (sampleFactory emptyConfig true "") :=
  ⟨by decide, by decide,
    (NeedsDatasets_eq_reference sampleEnv (sampleCommand []) []
      (sampleFactory emptyConfig true "")).1⟩

/-- C7: `NeedsPersonalAccessToken` returns a non-nil error exactly when an
active deployment resolves and its token is not a personal access token; then it
renders `restrictedByAPITokenMsg`, printing it and returning `ErrSilent` when
rendering succeeds.  When no active deployment resolves, and also when the token
is a personal one, it returns nil and prints nothing. -/
theorem NeedsPersonalAccessToken_iff (env : Env) (cmd : Command) (args : List String)
    (f : Factory) :
    ((NeedsPersonalAccessToken env cmd args f).2 ≠ none ↔
      ((env.GetActiveDeployment f.Config).2 = true ∧
        env.IsPersonalToken (env.GetActiveDeployment f.Config).1.Token = false)) ∧
    (((env.GetActiveDeployment f.Config).2 = true ∧
        env.IsPersonalToken (env.GetActiveDeployment f.Config).1.Token = false) →
      NeedsPersonalAccessToken env cmd args f =
          execTemplateSilent env f Template.restrictedByAPITokenMsg
            [("Deployment", f.Config.ActiveDeployment), ("CommandPath", cmd.CommandPath)] ∧
        (renders env f Template.restrictedByAPITokenMsg
            [("Deployment", f.Config.ActiveDeployment), ("CommandPath", cmd.CommandPath)] →
          NeedsPersonalAccessToken env cmd args f =
            ({ f with ErrOut := f.ErrOut ++ [rendered env f Template.restrictedByAPITokenMsg
                [("Deployment", f.Config.ActiveDeployment),
                  ("CommandPath", cmd.CommandPath)]] },
              some Error.ErrSilent))) ∧
    ((env.GetActiveDeployment f.Config).2 = false →
      NeedsPersonalAccessToken env cmd args f = (f, none)) ∧
    (env.IsPersonalToken (env.GetActiveDeployment f.Config).1.Token = true →
      NeedsPersonalAccessToken env cmd args f = (f, none)) := by
  have hbad : ((env.GetActiveDeployment f.Config).2 = true ∧
        env.IsPersonalToken (env.GetActiveDeployment f.Config).1.Token = false) →
      NeedsPersonalAccessToken env cmd args f =
        execTemplateSilent env f Template.restrictedByAPITokenMsg
          [("Deployment", f.Config.ActiveDeployment), ("CommandPath", cmd.CommandPath)] := by
    rintro ⟨h1, h2⟩
    unfold NeedsPersonalAccessToken
    simp [h1, h2]
  have hno : (env.GetActiveDeployment f.Config).2 = false →
      NeedsPersonalAccessToken env cmd args f = (f, none) := by
    intro h1
    unfold NeedsPersonalAccessToken
    simp [h1]
  have hpat : env.IsPersonalToken (env.GetActiveDeployment f.Config).1.Token = true →
      NeedsPersonalAccessToken env cmd args f = (f, none) := by
    intro h2
    unfold NeedsPersonalAccessToken
    simp [h2]
  refine ⟨?_, ?_, hno, hpat⟩
  · constructor
    · intro hne
      cases h1 : (env.GetActiveDeployment f.Config).2 with
      | false => rw [hno h1] at hne; exact absurd rfl hne
      | true =>
        cases h2 : env.IsPersonalToken (env.GetActiveDeployment f.Config).1.Token with
        | true => rw [hpat h2] at hne; exact absurd rfl hne
        | false => exact ⟨rfl, rfl⟩
    · intro h
      rw [hbad h]
      exact execTemplateSilent_error_ne_none env f _ _
  · intro h
    refine ⟨hbad h, ?_⟩
    intro hr
    rw [hbad h]
    exact execTemplateSilent_of_renders env f _ _ hr

/-- Witness for C7: the active deployment `dev` holds an API token; the message
is printed and `ErrSilent` returned. -/
theorem NeedsPersonalAccessToken_iff_witness :
    NeedsPersonalAccessToken sampleEnv (sampleCommand []) []
        (sampleFactory { oneDeployment with ActiveDeployment := "dev" } true "") =
      (⟨{ oneDeployment with ActiveDeployment := "dev" }, true, false,
          [Template.firstLine Template.restrictedByAPITokenMsg], [], [""]⟩,
        some Error.ErrSilent) ∧
    NeedsPersonalAccessToken sampleEnv (sampleCommand []) []
        (sampleFactory oneDeployment true "") = (sampleFactory oneDeployment true "", none) :=
  ⟨by decide,
    (NeedsPersonalAccessToken_iff sampleEnv (sampleCommand []) []
      (sampleFactory oneDeployment true "")).2.2.1 rfl⟩

/-- C8: `NeedsCloudDeployment` returns a non-nil error exactly when an active
deployment resolves, its URL differs from the cloud URL and `ForceCloud` is not
set; then it renders `notCloudDeploymentMsg`, printing it and returning
`ErrSilent` when rendering succeeds.  In every other state it returns nil and
prints nothing. -/
theorem NeedsCloudDeployment_iff (env : Env) (cmd : Command) (args : List String)
    (f : Factory) :
    ((NeedsCloudDeployment env cmd args f).2 ≠ none ↔
      ((env.GetActiveDeployment f.Config).2 = true ∧
        (env.GetActiveDeployment f.Config).1.URL ≠ env.CloudURL ∧
        f.Config.ForceCloud = false)) ∧
    (((env.GetActiveDeployment f.Config).2 = true ∧
        (env.GetActiveDeployment f.Config).1.URL ≠ env.CloudURL ∧
        f.Config.ForceCloud = false) →
      NeedsCloudDeployment env cmd args f =
          execTemplateSilent env f Template.notCloudDeploymentMsg
            [("Deployment", f.Config.ActiveDeployment)] ∧
        (renders env f Template.notCloudDeploymentMsg
            [("Deployment", f.Config.ActiveDeployment)] →
          NeedsCloudDeployment env cmd args f =
            ({ f with ErrOut := f.ErrOut ++ [rendered env f Template.notCloudDeploymentMsg
                [("Deployment", f.Config.ActiveDeployment)]] },
              some Error.ErrSilent))) ∧
    (¬ ((env.GetActiveDeployment f.Config).2 = true ∧
        (env.GetActiveDeployment f.Config).1.URL ≠ env.CloudURL ∧
        f.Config.ForceCloud = false) →
      NeedsCloudDeployment env cmd args f = (f, none)) := by
  have hbad : ((env.GetActiveDeployment f.Config).2 = true ∧
        (env.GetActiveDeployment f.Config).1.URL ≠ env.CloudURL ∧
        f.Config.ForceCloud = false) →
      NeedsCloudDeployment env cmd args f =
        execTemplateSilent env f Template.notCloudDeploymentMsg
          [("Deployment", f.Config.ActiveDeployment)] := by
    rintro ⟨h1, h2, h3⟩
    unfold NeedsCloudDeployment
    simp [h1, h2, h3]
  have hgood : ¬ ((env.GetActiveDeployment f.Config).2 = true ∧
        (env.GetActiveDeployment f.Config).1.URL ≠ env.CloudURL ∧
        f.Config.ForceCloud = false) →
      NeedsCloudDeployment env cmd args f = (f, none) := by
    intro h
    unfold NeedsCloudDeployment
    cases h1 : (env.GetActiveDeployment f.Config).2 with
    | false => simp
    | true =>
      by_cases h2 : (env.GetActiveDeployment f.Config).1.URL = env.CloudURL
      · simp [h2]
      · cases h3 : f.Config.ForceCloud with
        | true => simp
        | false => exact absurd ⟨h1, h2, h3⟩ h
  refine ⟨?_, ?_, hgood⟩
  · constructor
    · intro hne
      by_contra hcon
      rw [hgood hcon] at hne
      exact hne rfl
    · intro h
      rw [hbad h]
      exact execTemplateSilent_error_ne_none env f _ _
  · intro h
    refine ⟨hbad h, ?_⟩
    intro hr
    rw [hbad h]
    exact execTemplateSilent_of_renders env f _ _ hr

/-- Witness for C8: the active deployment `dev` is not on the cloud URL; the
message is printed and `ErrSilent` returned, and with `ForceCloud` set the same
state passes. -/
theorem NeedsCloudDeployment_iff_witness :
    NeedsCloudDeployment sampleEnv (sampleCommand []) []
        (sampleFactory { oneDeployment with ActiveDeployment := "dev" } true "") =
      (⟨{ oneDeployment with ActiveDeployment := "dev" }, true, false,
          [Template.firstLine Template.notCloudDeploymentMsg], [], [""]⟩,
        some Error.ErrSilent) ∧
    NeedsCloudDeployment sampleEnv (sampleCommand []) []
        (sampleFactory { oneDeployment with ActiveDeployment := "dev", ForceCloud := true }
          true "") =
      (sampleFactory { oneDeployment with ActiveDeployment := "dev", ForceCloud := true }
        true "", none) :=
  ⟨by decide,
    (NeedsCloudDeployment_iff sampleEnv (sampleCommand []) []
      (sampleFactory { oneDeployment with ActiveDeployment := "dev", ForceCloud := true }
        true "")).2.2 (by decide)⟩

end Cli
